import Mathlib

/-!
Shallow embedding of `pyanaconda/storage/initialization.py`.

The module is glue code: it pushes configuration read from RPC-style proxy
services into a storage-model object, optionally reloads hardware-discovery
kernel modules, and retries the external `reset()` primitive under the
control of an error-handling callback.  We embed the proxy states and the
storage model as records, the module-level side effects as explicit call
traces, and the `while True` retry loop as a fuel-indexed recursion whose
per-attempt outcome of `reset_storage` is supplied by an oracle (the
`reset()` primitive is external and may raise).
-/

namespace StorageInit

/-- A discovered disk; this code only ever reads its name. -/
structure Disk where
  name : String
  deriving DecidableEq, Repr

/-- State of the DISK_SELECTION configuration proxy. -/
structure DiskSelectionState where
  SelectedDisks : List String
  IgnoredDisks : List String
  deriving DecidableEq, Repr

/-- State of the DISK_INITIALIZATION configuration proxy. -/
structure DiskInitState where
  InitializationMode : Int
  DrivesToClear : List String
  DevicesToClear : List String
  InitializeLabelsEnabled : Bool
  FormatUnrecognizedEnabled : Bool
  deriving DecidableEq, Repr

/-- State of the AUTO_PARTITIONING configuration proxy. -/
structure AutoPartitioningState where
  Enabled : Bool
  FilesystemType : String
  deriving DecidableEq, Repr

/-- The StorageDiscoveryConfig record owned by the storage model:
exactly the five fields this module mutates. -/
structure StorageConfig where
  clear_part_type : Int
  clear_part_disks : List String
  clear_part_devices : List String
  initializeDisks : Bool
  zero_mbr : Bool
  deriving DecidableEq, Repr

/-- The slice of the Blivet storage model this module touches. -/
structure StorageModel where
  disks : List Disk
  default_fstype : String
  default_boot_fstype : String
  config : StorageConfig
  ignored_disks : List String
  exclusive_disks : List String
  deriving DecidableEq, Repr

/-- `storage.set_default_fstype`, modelled as a field update. -/
def StorageModel.set_default_fstype (s : StorageModel) (t : String) : StorageModel :=
  { s with default_fstype := t }

/-- `storage.set_default_boot_fstype`, modelled as a field update. -/
def StorageModel.set_default_boot_fstype (s : StorageModel) (t : String) : StorageModel :=
  { s with default_boot_fstype := t }

/-- The result of `select_all_disks_by_default`: the (possibly updated)
proxy state, the returned list, and the arguments of every
`SetSelectedDisks` write performed. -/
structure SelectResult where
  proxy : DiskSelectionState
  result : List String
  writes : List (List String)
  deriving DecidableEq, Repr

/-- `select_all_disks_by_default(storage)`: if no disks are selected in the
DISK_SELECTION proxy, select the names of all discovered disks not in the
ignored list and write that list back; otherwise return the existing
selection untouched.  Python truthiness of a list is `isEmpty`. -/
def select_all_disks_by_default (storage : StorageModel)
    (proxy : DiskSelectionState) : SelectResult :=
  let selected_disks := proxy.SelectedDisks
  let ignored_disks := proxy.IgnoredDisks
  if selected_disks.isEmpty then
    let selected_disks :=
      (storage.disks.filter (fun d => !(ignored_disks.contains d.name))).map Disk.name
    { proxy := { proxy with SelectedDisks := selected_disks }
      result := selected_disks
      writes := [selected_disks] }
  else
    { proxy := proxy, result := selected_disks, writes := [] }

/-- Helper: on a non-empty existing selection the auto-selector is the
identity on the proxy, returns the selection, and performs no write. -/
theorem select_all_disks_nonempty (storage : StorageModel)
    (proxy : DiskSelectionState) (h : proxy.SelectedDisks ≠ []) :
    select_all_disks_by_default storage proxy =
      { proxy := proxy, result := proxy.SelectedDisks, writes := [] } := by
  unfold select_all_disks_by_default
  cases hsel : proxy.SelectedDisks with
  | nil => exact absurd hsel h
  | cons a l => simp [hsel]

/-- C1: with an empty selection the auto-selector computes the names of all
discovered disks not in the ignored list, writes that list back to the
service and returns it; with a non-empty selection it returns it unchanged
with no write, and a second call on the resulting state is a no-op. -/
theorem C1_select_all_disks_by_default (st1 st2 : StorageModel)
    (p1 p2 : DiskSelectionState)
    (h1 : p1.SelectedDisks = []) (h2 : p2.SelectedDisks ≠ []) :
    (select_all_disks_by_default st1 p1 =
      { proxy := { p1 with SelectedDisks :=
            (st1.disks.filter (fun d => !(p1.IgnoredDisks.contains d.name))).map Disk.name }
        result :=
          (st1.disks.filter (fun d => !(p1.IgnoredDisks.contains d.name))).map Disk.name
        writes :=
          [(st1.disks.filter (fun d => !(p1.IgnoredDisks.contains d.name))).map Disk.name] }) ∧
    select_all_disks_by_default st2 p2 =
      { proxy := p2, result := p2.SelectedDisks, writes := [] } ∧
    select_all_disks_by_default st2 (select_all_disks_by_default st2 p2).proxy =
      { proxy := p2, result := p2.SelectedDisks, writes := [] } := by
  refine ⟨?_, select_all_disks_nonempty st2 p2 h2, ?_⟩
  · unfold select_all_disks_by_default
    simp [h1]
  · rw [select_all_disks_nonempty st2 p2 h2]
    exact select_all_disks_nonempty st2 p2 h2

/-- Demo storage model used to instantiate the theorems. -/
def demoStorage : StorageModel :=
  { disks := [⟨"sda"⟩, ⟨"sdb"⟩, ⟨"sdc"⟩]
    default_fstype := "xfs"
    default_boot_fstype := "xfs"
    config := ⟨0, [], [], false, false⟩
    ignored_disks := []
    exclusive_disks := [] }

/-- C1 witness: discovered disks sda, sdb, sdc with sdb ignored and no
selection yield the selection sda, sdc written back; an existing selection
vda is returned unchanged with no write. -/
theorem C1_witness :
    (⟨[], ["sdb"]⟩ : DiskSelectionState).SelectedDisks = [] ∧
    (⟨["vda"], []⟩ : DiskSelectionState).SelectedDisks ≠ [] ∧
    select_all_disks_by_default demoStorage ⟨[], ["sdb"]⟩ =
      { proxy := ⟨["sda", "sdc"], ["sdb"]⟩
        result := ["sda", "sdc"]
        writes := [["sda", "sdc"]] } ∧
    select_all_disks_by_default demoStorage ⟨["vda"], []⟩ =
      { proxy := ⟨["vda"], []⟩, result := ["vda"], writes := [] } := by
  have h := C1_select_all_disks_by_default demoStorage demoStorage
    ⟨[], ["sdb"]⟩ ⟨["vda"], []⟩ rfl (by decide)
  refine ⟨rfl, by decide, ?_, h.2.1⟩
  rw [h.1]
  rfl

/-- C9: a pre-existing non-empty selection is returned verbatim even when
it contains ignored disks; the ignored-disk filter never applies to a
pre-existing selection. -/
theorem C9_preexisting_selection_verbatim (storage : StorageModel)
    (proxy : DiskSelectionState) (h : proxy.SelectedDisks ≠ []) :
    select_all_disks_by_default storage proxy =
      { proxy := proxy, result := proxy.SelectedDisks, writes := [] } :=
  select_all_disks_nonempty storage proxy h

/-- C9 witness: the selection consisting of the ignored disk sdb alone is
returned verbatim, unfiltered, with no write. -/
theorem C9_witness :
    (⟨["sdb"], ["sdb"]⟩ : DiskSelectionState).SelectedDisks ≠ [] ∧
    "sdb" ∈ (⟨["sdb"], ["sdb"]⟩ : DiskSelectionState).IgnoredDisks ∧
    select_all_disks_by_default demoStorage ⟨["sdb"], ["sdb"]⟩ =
      { proxy := ⟨["sdb"], ["sdb"]⟩, result := ["sdb"], writes := [] } :=
  ⟨by decide, by decide,
    C9_preexisting_selection_verbatim demoStorage ⟨["sdb"], ["sdb"]⟩ (by decide)⟩

/-- `set_storage_defaults_from_kickstart(storage)`: if automatic
partitioning is enabled in the AUTO_PARTITIONING proxy and a filesystem
type is specified there (Python truthiness of a string: non-empty), set
both default filesystem types on the model; no-op otherwise. -/
def set_storage_defaults_from_kickstart (auto_part : AutoPartitioningState)
    (storage : StorageModel) : StorageModel :=
  let fstype := auto_part.FilesystemType
  if auto_part.Enabled && !(fstype == "") then
    (storage.set_default_fstype fstype).set_default_boot_fstype fstype
  else
    storage

/-- C4: with auto-partitioning enabled and a non-empty filesystem type the
applier overwrites both the default and the default-boot filesystem types
with it; with auto-partitioning disabled or no filesystem type the model is
left untouched. -/
theorem C4_kickstart_defaults (a1 a2 : AutoPartitioningState)
    (s1 s2 : StorageModel)
    (h1 : a1.Enabled = true) (h2 : a1.FilesystemType ≠ "")
    (h3 : a2.Enabled = false ∨ a2.FilesystemType = "") :
    set_storage_defaults_from_kickstart a1 s1 =
      { s1 with default_fstype := a1.FilesystemType
                default_boot_fstype := a1.FilesystemType } ∧
    set_storage_defaults_from_kickstart a2 s2 = s2 := by
  constructor
  · unfold set_storage_defaults_from_kickstart
    simp [h1, h2, StorageModel.set_default_fstype, StorageModel.set_default_boot_fstype]
  · unfold set_storage_defaults_from_kickstart
    rcases h3 with h3 | h3 <;> simp [h3]

/-- C4 witness: enabled with type ext4 sets both defaults to ext4 on the
demo model; disabled with the same type leaves the model untouched. -/
theorem C4_witness :
    (⟨true, "ext4"⟩ : AutoPartitioningState).Enabled = true ∧
    (⟨true, "ext4"⟩ : AutoPartitioningState).FilesystemType ≠ "" ∧
    ((⟨false, "ext4"⟩ : AutoPartitioningState).Enabled = false ∨
      (⟨false, "ext4"⟩ : AutoPartitioningState).FilesystemType = "") ∧
    set_storage_defaults_from_kickstart ⟨true, "ext4"⟩ demoStorage =
      { demoStorage with default_fstype := "ext4", default_boot_fstype := "ext4" } ∧
    set_storage_defaults_from_kickstart ⟨false, "ext4"⟩ demoStorage = demoStorage := by
  have h := C4_kickstart_defaults ⟨true, "ext4"⟩ ⟨false, "ext4"⟩
    demoStorage demoStorage rfl (by decide) (Or.inl rfl)
  exact ⟨rfl, by decide, Or.inl rfl, h.1, h.2⟩

/-- The static process configuration read via `conf` and `arch`:
target kind, architecture, and the flag sources used by this module. -/
structure Conf where
  is_image : Bool
  is_directory : Bool
  is_s390 : Bool
  selinux : Bool
  dmraid : Bool
  ibft : Bool
  multipath_friendly_names : Bool
  allow_imperfect_devices : Bool
  deriving DecidableEq, Repr

/-- External calls made by one run of `reset_storage`, in order. -/
inductive ResetCall where
  | updateConfig
  | setDiskLists
  | iscsiStartup
  | fcoeReload
  | zfcpReload
  | storageReset
  deriving DecidableEq, Repr

/-- `update_storage_config(config)`: copy the five discovery fields from
the DISK_INITIALIZATION proxy onto the storage config. -/
def update_storage_config (disk_init : DiskInitState)
    (config : StorageConfig) : StorageConfig :=
  { config with
    clear_part_type := disk_init.InitializationMode
    clear_part_disks := disk_init.DrivesToClear
    clear_part_devices := disk_init.DevicesToClear
    initializeDisks := disk_init.InitializeLabelsEnabled
    zero_mbr := disk_init.FormatUnrecognizedEnabled }

/-- `reset_storage(storage)`: update the config, assign the ignored and
exclusive disks from the DISK_SELECTION proxy, reload discovery modules
unless installing to an image (zFCP only on s390), then call the external
reset primitive.  Returns the mutated model and the ordered call trace. -/
def reset_storage (c : Conf) (disk_init : DiskInitState)
    (disk_select : DiskSelectionState) (storage : StorageModel) :
    StorageModel × List ResetCall :=
  let storage := { storage with config := update_storage_config disk_init storage.config }
  let storage := { storage with
    ignored_disks := disk_select.IgnoredDisks
    exclusive_disks := disk_select.SelectedDisks }
  let reloadCalls :=
    if c.is_image then []
    else
      [ResetCall.iscsiStartup, ResetCall.fcoeReload] ++
        (if c.is_s390 then [ResetCall.zfcpReload] else [])
  (storage,
    [ResetCall.updateConfig, ResetCall.setDiskLists] ++ reloadCalls ++
      [ResetCall.storageReset])

/-- C5: on an image-type target no iSCSI, FCoE or zFCP reload call is made
during reset; on a non-image target on non-s390 architecture the iSCSI and
FCoE calls are made but the zFCP call is not. -/
theorem C5_reload_calls (c1 c2 : Conf) (d1 d2 : DiskInitState)
    (p1 p2 : DiskSelectionState) (s1 s2 : StorageModel)
    (h1 : c1.is_image = true) (h2 : c2.is_image = false)
    (h3 : c2.is_s390 = false) :
    (ResetCall.iscsiStartup ∉ (reset_storage c1 d1 p1 s1).2 ∧
     ResetCall.fcoeReload ∉ (reset_storage c1 d1 p1 s1).2 ∧
     ResetCall.zfcpReload ∉ (reset_storage c1 d1 p1 s1).2) ∧
    (ResetCall.iscsiStartup ∈ (reset_storage c2 d2 p2 s2).2 ∧
     ResetCall.fcoeReload ∈ (reset_storage c2 d2 p2 s2).2 ∧
     ResetCall.zfcpReload ∉ (reset_storage c2 d2 p2 s2).2) := by
  unfold reset_storage
  simp [h1, h2, h3]

/-- Demo proxy states used to instantiate the reset theorems. -/
def demoDiskInit : DiskInitState := ⟨1, ["sda"], ["sda1"], true, true⟩

/-- Demo disk-selection proxy state for the reset theorems. -/
def demoSelection : DiskSelectionState := ⟨["sda"], ["sdb"]⟩

/-- Demo static configuration: image-type target. -/
def confImage : Conf := ⟨true, false, false, true, true, true, false, false⟩

/-- Demo static configuration: real target, non-s390 architecture. -/
def confPlain : Conf := ⟨false, false, false, true, true, true, false, false⟩

/-- C5 witness: on the image-target configuration no reload call appears in
the reset trace; on the plain non-s390 configuration iSCSI and FCoE appear
but zFCP does not. -/
theorem C5_witness :
    confImage.is_image = true ∧ confPlain.is_image = false ∧
    confPlain.is_s390 = false ∧
    (ResetCall.iscsiStartup ∉
        (reset_storage confImage demoDiskInit demoSelection demoStorage).2 ∧
     ResetCall.fcoeReload ∉
        (reset_storage confImage demoDiskInit demoSelection demoStorage).2 ∧
     ResetCall.zfcpReload ∉
        (reset_storage confImage demoDiskInit demoSelection demoStorage).2) ∧
    (ResetCall.iscsiStartup ∈
        (reset_storage confPlain demoDiskInit demoSelection demoStorage).2 ∧
     ResetCall.fcoeReload ∈
        (reset_storage confPlain demoDiskInit demoSelection demoStorage).2 ∧
     ResetCall.zfcpReload ∉
        (reset_storage confPlain demoDiskInit demoSelection demoStorage).2) := by
  have h := C5_reload_calls confImage confPlain demoDiskInit demoDiskInit
    demoSelection demoSelection demoStorage demoStorage rfl rfl rfl
  exact ⟨rfl, rfl, rfl, h.1, h.2⟩

/-- C6: every run of `reset_storage` sets the five discovery-config fields
from the disk-initialization proxy, assigns the ignored and selected disk
lists from the disk-selection proxy onto the model, and does both before
the reset primitive: the trace starts with the config update and the disk
list assignment and ends with the reset primitive. -/
theorem C6_reset_sets_config_first (c : Conf) (d : DiskInitState)
    (p : DiskSelectionState) (s : StorageModel) :
    (reset_storage c d p s).1.config = update_storage_config d s.config ∧
    (reset_storage c d p s).1.config.clear_part_type = d.InitializationMode ∧
    (reset_storage c d p s).1.config.clear_part_disks = d.DrivesToClear ∧
    (reset_storage c d p s).1.config.clear_part_devices = d.DevicesToClear ∧
    (reset_storage c d p s).1.config.initializeDisks = d.InitializeLabelsEnabled ∧
    (reset_storage c d p s).1.config.zero_mbr = d.FormatUnrecognizedEnabled ∧
    (reset_storage c d p s).1.ignored_disks = p.IgnoredDisks ∧
    (reset_storage c d p s).1.exclusive_disks = p.SelectedDisks ∧
    (reset_storage c d p s).2.take 2 =
      [ResetCall.updateConfig, ResetCall.setDiskLists] ∧
    (reset_storage c d p s).2.getLast? = some ResetCall.storageReset := by
  unfold reset_storage update_storage_config
  cases hi : c.is_image <;> cases hs : c.is_s390 <;> simp

/-- Outcome of one invocation of `reset_storage` as seen by the retry
loop: success, a StorageError (the only class the loop catches), or any
other exception raised anywhere in the reset sequence. -/
inductive ResetOutcome where
  | ok
  | storageError (e : Nat)
  | otherError (e : Nat)
  deriving DecidableEq, Repr

/-- Directive returned by `error_handler.cb`; the loop re-raises exactly
on ERROR_RAISE and retries on anything else. -/
inductive Directive where
  | ERROR_RAISE
  | ERROR_CONTINUE
  | ERROR_RETRY
  deriving DecidableEq, Repr

/-- Observable events of one run of `initialize_storage`. -/
inductive Event where
  | shutdown
  | reset
  | handlerCall (e : Nat)
  deriving DecidableEq, Repr

/-- How a run of `initialize_storage` ends. -/
inductive InitResult where
  | done
  | raisedStorageError (e : Nat)
  | raisedOther (e : Nat)
  | outOfFuel
  deriving DecidableEq, Repr

/-- The `while True` retry loop of `initialize_storage`, indexed by fuel.
`R n` is the outcome of the n-th invocation of `reset_storage` (the
external reset primitive may raise), `handler` is `error_handler.cb`.
Each iteration appends a reset event; a caught StorageError appends the
handler call, and a non-ERROR_RAISE directive loops again. -/
def init_loop (R : Nat → ResetOutcome) (handler : Nat → Directive) :
    Nat → Nat → List Event → InitResult × List Event
  | 0, _, trace => (InitResult.outOfFuel, trace)
  | fuel + 1, attempt, trace =>
    match R attempt with
    | ResetOutcome.ok => (InitResult.done, trace ++ [Event.reset])
    | ResetOutcome.otherError e => (InitResult.raisedOther e, trace ++ [Event.reset])
    | ResetOutcome.storageError e =>
      match handler e with
      | Directive.ERROR_RAISE =>
        (InitResult.raisedStorageError e, trace ++ [Event.reset, Event.handlerCall e])
      | _ => init_loop R handler fuel (attempt + 1)
          (trace ++ [Event.reset, Event.handlerCall e])

/-- `initialize_storage(storage)`: shut the model down once, then run the
retry loop around `reset_storage`. -/
def initializeStorage (R : Nat → ResetOutcome) (handler : Nat → Directive)
    (fuel : Nat) : InitResult × List Event :=
  init_loop R handler fuel 0 [Event.shutdown]

/-- Boolean recognizer for reset events. -/
def isReset : Event → Bool
  | Event.reset => true
  | _ => false

/-- Boolean recognizer for shutdown events. -/
def isShutdown : Event → Bool
  | Event.shutdown => true
  | _ => false

/-- Number of `reset_storage` invocations recorded in a trace. -/
def countReset (t : List Event) : Nat := t.countP isReset

/-- Number of shutdown calls recorded in a trace. -/
def countShutdown (t : List Event) : Nat := t.countP isShutdown

/-- C2: if reset raises a recoverable storage error on the first two
attempts, the handler answers continue both times, and the third attempt
succeeds, then reset is invoked exactly three times and initialization
completes without propagating an error. -/
theorem C2_continue_twice_then_succeed (R : Nat → ResetOutcome)
    (handler : Nat → Directive) (e0 e1 : Nat) (fuel : Nat)
    (hR0 : R 0 = ResetOutcome.storageError e0)
    (hR1 : R 1 = ResetOutcome.storageError e1)
    (hR2 : R 2 = ResetOutcome.ok)
    (hh0 : handler e0 = Directive.ERROR_CONTINUE)
    (hh1 : handler e1 = Directive.ERROR_CONTINUE)
    (hfuel : 3 ≤ fuel) :
    (initializeStorage R handler fuel).1 = InitResult.done ∧
    countReset (initializeStorage R handler fuel).2 = 3 := by
  obtain ⟨k, rfl⟩ : ∃ k, fuel = k + 1 + 1 + 1 := ⟨fuel - 3, by omega⟩
  have h : initializeStorage R handler (k + 1 + 1 + 1) =
      (InitResult.done,
        [Event.shutdown, Event.reset, Event.handlerCall e0,
          Event.reset, Event.handlerCall e1, Event.reset]) := by
    simp [initializeStorage, init_loop, hR0, hR1, hR2, hh0, hh1]
  rw [h]
  exact ⟨rfl, rfl⟩

/-- Oracle for the C2 witness: storage errors on the first two attempts,
success afterwards. -/
def oracleC2 : Nat → ResetOutcome
  | 0 => ResetOutcome.storageError 0
  | 1 => ResetOutcome.storageError 1
  | _ => ResetOutcome.ok

/-- Handler for the C2 witness: always answers continue. -/
def handlerC2 : Nat → Directive := fun _ => Directive.ERROR_CONTINUE

/-- C2 witness: with two storage errors answered continue and success on
the third attempt, the run completes and the trace holds three resets. -/
theorem C2_witness :
    oracleC2 0 = ResetOutcome.storageError 0 ∧
    oracleC2 1 = ResetOutcome.storageError 1 ∧
    oracleC2 2 = ResetOutcome.ok ∧
    handlerC2 0 = Directive.ERROR_CONTINUE ∧
    handlerC2 1 = Directive.ERROR_CONTINUE ∧
    3 ≤ 3 ∧
    (initializeStorage oracleC2 handlerC2 3).1 = InitResult.done ∧
    countReset (initializeStorage oracleC2 handlerC2 3).2 = 3 := by
  have h := C2_continue_twice_then_succeed oracleC2 handlerC2 0 1 3
    rfl rfl rfl rfl rfl (by decide)
  exact ⟨rfl, rfl, rfl, rfl, rfl, by decide, h.1, h.2⟩

/-- C3: if the first attempt raises a storage error and the handler
answers ERROR_RAISE, the error propagates and reset is invoked exactly
once. -/
theorem C3_raise_on_first_error (R : Nat → ResetOutcome)
    (handler : Nat → Directive) (e : Nat) (fuel : Nat)
    (hfuel : 1 ≤ fuel)
    (hR : R 0 = ResetOutcome.storageError e)
    (hh : handler e = Directive.ERROR_RAISE) :
    (initializeStorage R handler fuel).1 = InitResult.raisedStorageError e ∧
    countReset (initializeStorage R handler fuel).2 = 1 := by
  obtain ⟨k, rfl⟩ : ∃ k, fuel = k + 1 := ⟨fuel - 1, by omega⟩
  have h : initializeStorage R handler (k + 1) =
      (InitResult.raisedStorageError e,
        [Event.shutdown, Event.reset, Event.handlerCall e]) := by
    simp [initializeStorage, init_loop, hR, hh]
  rw [h]
  exact ⟨rfl, rfl⟩

/-- Oracle for the C3 witness: a storage error on every attempt. -/
def oracleC3 : Nat → ResetOutcome := fun _ => ResetOutcome.storageError 7

/-- Handler for the C3 witness: always answers ERROR_RAISE. -/
def handlerC3 : Nat → Directive := fun _ => Directive.ERROR_RAISE

/-- C3 witness: a storage error answered ERROR_RAISE on the first attempt
propagates with exactly one reset in the trace. -/
theorem C3_witness :
    (1 : Nat) ≤ 5 ∧
    oracleC3 0 = ResetOutcome.storageError 7 ∧
    handlerC3 7 = Directive.ERROR_RAISE ∧
    (initializeStorage oracleC3 handlerC3 5).1 = InitResult.raisedStorageError 7 ∧
    countReset (initializeStorage oracleC3 handlerC3 5).2 = 1 := by
  have h := C3_raise_on_first_error oracleC3 handlerC3 7 5 (by decide) rfl rfl
  exact ⟨by decide, rfl, rfl, h.1, h.2⟩

/-- C8: an exception that is not a storage error is not caught by the
retry loop: it propagates to the caller after a single reset attempt, with
no handler call and no retry. -/
theorem C8_other_exceptions_propagate (R : Nat → ResetOutcome)
    (handler : Nat → Directive) (e : Nat) (fuel : Nat)
    (hfuel : 1 ≤ fuel)
    (hR : R 0 = ResetOutcome.otherError e) :
    initializeStorage R handler fuel =
      (InitResult.raisedOther e, [Event.shutdown, Event.reset]) := by
  obtain ⟨k, rfl⟩ : ∃ k, fuel = k + 1 := ⟨fuel - 1, by omega⟩
  simp [initializeStorage, init_loop, hR]

/-- Oracle for the C8 witness: a non-storage exception on every attempt. -/
def oracleC8 : Nat → ResetOutcome := fun _ => ResetOutcome.otherError 5

/-- Handler for the C8 witness: always answers continue; it is never
consulted. -/
def handlerC8 : Nat → Directive := fun _ => Directive.ERROR_CONTINUE

/-- C8 witness: a non-storage exception propagates after one reset, with
no handler call recorded, even though the handler would answer continue. -/
theorem C8_witness :
    (1 : Nat) ≤ 4 ∧
    oracleC8 0 = ResetOutcome.otherError 5 ∧
    initializeStorage oracleC8 handlerC8 4 =
      (InitResult.raisedOther 5, [Event.shutdown, Event.reset]) :=
  ⟨by decide, rfl, C8_other_exceptions_propagate oracleC8 handlerC8 5 4 (by decide) rfl⟩

/-- Helper: the loop only appends events, none of them shutdowns. -/
theorem init_loop_trace_extends (R : Nat → ResetOutcome)
    (handler : Nat → Directive) :
    ∀ fuel attempt trace, ∃ rest,
      (init_loop R handler fuel attempt trace).2 = trace ++ rest ∧
      countShutdown rest = 0 := by
  intro fuel
  induction fuel with
  | zero =>
    intro attempt trace
    exact ⟨[], by simp [init_loop], rfl⟩
  | succ n ih =>
    intro attempt trace
    cases hR : R attempt with
    | ok =>
      refine ⟨[Event.reset], ?_, rfl⟩
      simp [init_loop, hR]
    | otherError e =>
      refine ⟨[Event.reset], ?_, rfl⟩
      simp [init_loop, hR]
    | storageError e =>
      cases hH : handler e with
      | ERROR_RAISE =>
        refine ⟨[Event.reset, Event.handlerCall e], ?_, rfl⟩
        simp [init_loop, hR, hH]
      | ERROR_CONTINUE =>
        obtain ⟨rest, hrest, hcount⟩ :=
          ih (attempt + 1) (trace ++ [Event.reset, Event.handlerCall e])
        refine ⟨[Event.reset, Event.handlerCall e] ++ rest, ?_, ?_⟩
        · simp [init_loop, hR, hH, hrest]
        · simpa [countShutdown, List.countP_append, isShutdown] using hcount
      | ERROR_RETRY =>
        obtain ⟨rest, hrest, hcount⟩ :=
          ih (attempt + 1) (trace ++ [Event.reset, Event.handlerCall e])
        refine ⟨[Event.reset, Event.handlerCall e] ++ rest, ?_, ?_⟩
        · simp [init_loop, hR, hH, hrest]
        · simpa [countShutdown, List.countP_append, isShutdown] using hcount

/-- C10: every run of the initializer records exactly one shutdown, and it
is the very first event, before any reset attempt; retries never repeat
it. -/
theorem C10_shutdown_once_first (R : Nat → ResetOutcome)
    (handler : Nat → Directive) (fuel : Nat) :
    countShutdown (initializeStorage R handler fuel).2 = 1 ∧
    (initializeStorage R handler fuel).2.head? = some Event.shutdown := by
  obtain ⟨rest, hrest, hcount⟩ :=
    init_loop_trace_extends R handler fuel 0 [Event.shutdown]
  unfold initializeStorage
  rw [hrest]
  constructor
  · simp [countShutdown, List.countP_append, isShutdown] at hcount ⊢
    exact hcount
  · simp

/-- The Blivet global behavior flags mutated by `enable_installer_mode`. -/
structure BlivetFlags where
  debug : Bool
  lvm_metadata_backup : Bool
  auto_dev_updates : Bool
  selinux_reset_fcon : Bool
  keep_empty_ext_partitions : Bool
  discard_new : Bool
  selinux : Bool
  dmraid : Bool
  ibft : Bool
  multipath_friendly_names : Bool
  allow_imperfect_devices : Bool
  deriving DecidableEq, Repr

/-- The udev device-name blacklist installed by `enable_installer_mode`. -/
def udev_device_name_blacklist : List String :=
  ["^mtd", "^mmcblk.+boot", "^mmcblk.+rpmb", "^zram", "^ndblk"]

/-- Process-wide state touched by `enable_installer_mode`: the library
flags, the platform descriptor re-derived from them, the udev blacklist,
whether the s390 plugin is loaded, and whether the program-log lock has
been installed into the library. -/
structure EnvState where
  flags : BlivetFlags
  platform_flags : BlivetFlags
  udev_blacklist : List String
  s390_plugin_loaded : Bool
  program_log_lock_installed : Bool
  deriving DecidableEq, Repr

/-- `load_plugin_s390()`: no-op in a directory installation or when the
plugin is already available; otherwise load it. -/
def load_plugin_s390 (c : Conf) (loaded : Bool) : Bool :=
  if c.is_directory then loaded
  else if loaded then loaded
  else true

/-- `enable_installer_mode()`: install the log lock, set the behavior
flags from the static configuration (metadata backup only suppressed on
image targets), re-derive the platform from the flags, load the s390
plugin on s390, and install the udev device-name blacklist. -/
def enable_installer_mode (c : Conf) (s : EnvState) : EnvState :=
  let flags := { s.flags with debug := true }
  let flags := if c.is_image then { flags with lvm_metadata_backup := false } else flags
  let flags := { flags with
    auto_dev_updates := true
    selinux_reset_fcon := true
    keep_empty_ext_partitions := false
    discard_new := true
    selinux := c.selinux
    dmraid := c.dmraid
    ibft := c.ibft
    multipath_friendly_names := c.multipath_friendly_names
    allow_imperfect_devices := c.allow_imperfect_devices }
  let plugin_loaded :=
    if c.is_s390 then load_plugin_s390 c s.s390_plugin_loaded
    else s.s390_plugin_loaded
  { flags := flags
    platform_flags := flags
    udev_blacklist := udev_device_name_blacklist
    s390_plugin_loaded := plugin_loaded
    program_log_lock_installed := true }

/-- C7: the environment configuration is idempotent: running it twice from
any static configuration and any starting state leaves every flag, the
platform descriptor, the blacklist and the plugin state exactly as one run
does. -/
theorem C7_enable_installer_mode_idempotent (c : Conf) (s : EnvState) :
    enable_installer_mode c (enable_installer_mode c s) =
      enable_installer_mode c s := by
  unfold enable_installer_mode load_plugin_s390
  cases hi : c.is_image <;> cases hs : c.is_s390 <;> cases hd : c.is_directory <;>
    cases hl : s.s390_plugin_loaded <;> simp

end StorageInit
